import Mathlib

/-!
Shallow embedding of the `ws-client` repository (src/InomialClient.js) and
verification of its specification claims.

The embedding models the single-threaded, event-driven client as a state
machine.  Each JavaScript method that mutates client state becomes a Lean
function `ClientState → inputs → ClientState × List Event`, where the event
list records the externally observable actions the method performs, in order:
writes to the websocket transport (`Event.sent`), promise resolutions and
subscription-callback invocations (`Event.resolved`), promise rejections
(`Event.rejected`), console output (`Event.log`), and attempts to open the
underlying transport (`Event.connectAttempt`).  Promises and callbacks are
identified by numeric tokens chosen by the environment; invoking
`request.resolve(response)` in the source is modelled as emitting
`Event.resolved tok response`.

JavaScript values flowing through the client (variables objects, parsed JSON
responses, cache entries) are modelled by the type `Jx`, which includes
`undefined` since the distinction between `null` and `undefined` is
observable (`JSON.stringify` omits object fields whose value is `undefined`;
the loose comparison `x != null` is false for both).
-/

namespace WsClient

/-- Model of the JavaScript values handled by the client: `null`, `undefined`,
booleans, numbers, strings, arrays and plain objects (field lists in
insertion order, as JS objects preserve insertion order for non-index
string keys). -/
inductive Jx where
  | null : Jx
  | undef : Jx
  | bool (b : Bool) : Jx
  | num (n : Int) : Jx
  | str (s : String) : Jx
  | arr (xs : List Jx) : Jx
  | obj (fs : List (String × Jx)) : Jx

/-- JSON string escaping for the characters that can appear in our payloads. -/
def escChar (c : Char) : String :=
  match c with
  | '"' => "\\\""
  | '\\' => "\\\\"
  | '\n' => "\\n"
  | '\r' => "\\r"
  | '\t' => "\\t"
  | c => String.mk [c]

/-- JSON string escaping, applied characterwise. -/
def escStr (s : String) : String :=
  String.join (s.data.map escChar)

mutual
/-- Model of `JSON.stringify` on `Jx` values.  Object fields whose value is
`undefined` are omitted from the output, exactly as `JSON.stringify` omits
them; `undefined` array elements serialize as `null`. -/
def stringify : Jx → String
  | Jx.null => "null"
  | Jx.undef => "undefined"
  | Jx.bool b => if b then "true" else "false"
  | Jx.num n => toString n
  | Jx.str s => "\"" ++ escStr s ++ "\""
  | Jx.arr xs => "[" ++ (stringifyArrAux xs).drop 1 ++ "]"
  | Jx.obj fs => "\x7b" ++ (stringifyFieldsAux fs).drop 1 ++ "\x7d"

/-- Array elements of `JSON.stringify`, each preceded by a comma (the leading
comma is dropped by the caller).  `undefined` elements become `null`. -/
def stringifyArrAux : List Jx → String
  | [] => ""
  | Jx.undef :: xs => ",null" ++ stringifyArrAux xs
  | x :: xs => "," ++ stringify x ++ stringifyArrAux xs

/-- Object fields of `JSON.stringify`, each preceded by a comma (the leading
comma is dropped by the caller).  Fields with `undefined` values are skipped. -/
def stringifyFieldsAux : List (String × Jx) → String
  | [] => ""
  | (_, Jx.undef) :: fs => stringifyFieldsAux fs
  | (k, v) :: fs => ",\"" ++ escStr k ++ "\":" ++ stringify v ++ stringifyFieldsAux fs
end

/-- Decimal digit to character. -/
def digitChar (d : Nat) : Char :=
  match d with
  | 0 => '0' | 1 => '1' | 2 => '2' | 3 => '3' | 4 => '4'
  | 5 => '5' | 6 => '6' | 7 => '7' | 8 => '8' | 9 => '9'
  | _ => 'X'

/-- Character to decimal digit (zero for non-digits). -/
def charVal (c : Char) : Nat :=
  match c with
  | '0' => 0 | '1' => 1 | '2' => 2 | '3' => 3 | '4' => 4
  | '5' => 5 | '6' => 6 | '7' => 7 | '8' => 8 | '9' => 9
  | _ => 0

/-- Little-endian decimal digits of `n`; `fuel` bounds the recursion depth
(`fuel = n` always suffices). -/
def digitsLE (fuel n : Nat) : List Nat :=
  match fuel with
  | 0 => []
  | f + 1 => if n = 0 then [] else n % 10 :: digitsLE f (n / 10)

/-- Decimal rendering of a natural number, as JavaScript number-to-string
conversion produces for the integer request counter. -/
def natDecimal (n : Nat) : String :=
  if n = 0 then "0" else String.mk (((digitsLE n n).map digitChar).reverse)

/-- Request identifier string: the source computes `"R" + this.nextRequestId++`
(InomialClient.js line 341). -/
def mkReqId (n : Nat) : String := "R" ++ natDecimal n

/-- Value of a little-endian digit list. -/
def valLE : List Nat → Nat
  | [] => 0
  | d :: ds => d + 10 * valLE ds

/-- Parse a decimal string back to a natural number (big-endian Horner
scheme); used only to establish injectivity of `natDecimal`. -/
def decParse (s : String) : Nat :=
  s.data.foldl (fun acc c => acc * 10 + charVal c) 0

/-- First-match lookup in a JS object represented as a field list. -/
def objGet {α : Type} : List (String × α) → String → Option α
  | [], _ => none
  | (k2, v) :: rest, k => if k2 = k then some v else objGet rest k

/-- JS object property assignment `o[k] = v`: replaces the existing entry for
`k` in place, or appends a new entry (JS objects keep insertion order). -/
def objInsert {α : Type} : List (String × α) → String → α → List (String × α)
  | [], k, v => [(k, v)]
  | (k2, v2) :: rest, k, v =>
      if k2 = k then (k, v) :: rest else (k2, v2) :: objInsert rest k v

/-- JS `delete o[k]`: removes the entry for `k`. -/
def objDelete {α : Type} : List (String × α) → String → List (String × α)
  | [], _ => []
  | (k2, v2) :: rest, k =>
      if k2 = k then objDelete rest k else (k2, v2) :: objDelete rest k

/-- Loose nullish test: JS `x == null` is true exactly for `null` and
`undefined`. -/
def jsIsNullish : Jx → Bool
  | Jx.null => true
  | Jx.undef => true
  | _ => false

/-- JS property access `o.k` on a non-nullish value: field lookup on objects
(with `undefined` for a missing field), `undefined` on other primitives for
the property names this client reads. -/
def jsGet : Jx → String → Jx
  | Jx.obj fs, k =>
      match objGet fs k with
      | some v => v
      | none => Jx.undef
  | _, _ => Jx.undef

/-- JS property access `o.k` where `o` may be nullish: `none` models the
`TypeError` thrown when accessing a property of `null`/`undefined`. -/
def jsGetOpt (v : Jx) (k : String) : Option Jx :=
  if jsIsNullish v then none else some (jsGet v k)

/-- JS property-key coercion applied by `o[x]` for a non-string `x` (only the
string and null cases are reachable in the client; array rendering is
approximated since no claim observes it). -/
def jsPropKey : Jx → String
  | Jx.str s => s
  | Jx.null => "null"
  | Jx.undef => "undefined"
  | Jx.bool b => if b then "true" else "false"
  | Jx.num n => toString n
  | Jx.arr _ => ""
  | Jx.obj _ => "[object Object]"

/-- JS truthiness, as tested by `if (x)` and `x && y` (NaN is not modelled;
no claim involves it). -/
def jsTruthy : Jx → Bool
  | Jx.null => false
  | Jx.undef => false
  | Jx.bool b => b
  | Jx.num n => decide (n ≠ 0)
  | Jx.str s => decide (s ≠ "")
  | Jx.arr _ => true
  | Jx.obj _ => true

/-- Values on which the JS `in` operator and property access are legal
objects (arrays included); on every other value `'x' in v` throws a
`TypeError`. -/
def isJsObject : Jx → Bool
  | Jx.obj _ => true
  | Jx.arr _ => true
  | _ => false

/-- The test `/[_A-Za-z]\w*/.test(s)` of InomialClient.js line 270: the
regex is unanchored and `\w*` matches the empty string, so it passes
exactly when `s` contains at least one character in `[_A-Za-z]`. -/
def containsWordStart (s : String) : Bool :=
  s.data.any (fun c =>
    c = '_' || ('A' ≤ c && c ≤ 'Z') || ('a' ≤ c && c ≤ 'z'))

/-- Log level `NONE` (InomialClient.js line 11). -/
def NONE : Nat := 0
/-- Log level `ERRORS` (line 12). -/
def ERRORS : Nat := 1
/-- Log level `INFO` (line 13). -/
def INFO : Nat := 2
/-- Log level `FINE` (line 14). -/
def FINE : Nat := 3

/-- One pending exchange, the object built in `query`/`subscribe`
(lines 203-208 and 246-251): the operation payload, the promise
resolve function or subscription callback (modelled as the token `tok`;
the `reject` function of the same promise is never invoked by the client),
and the subscription flag. -/
structure Request where
  queryString : String
  operationName : Jx
  vars : Jx
  tok : Nat
  isSubscription : Bool

/-- Observable actions of a client method, in program order.  `threw`
records an exception escaping a transport callback into the host runtime
(the websocket library's event dispatch), where it is no longer handled by
any client code. -/
inductive Event where
  | sent (payload : String)
  | resolved (tok : Nat) (response : Jx)
  | rejected (tok : Nat) (err : Jx)
  | log (line : String)
  | connectAttempt
  | threw (err : Jx)

/-- Mutable state of one `InomialClient` instance, the fields assigned in the
constructor (lines 66-124).  Endpoint configuration (url, origin, apikey,
websocket options) only parametrizes the transport connection attempt and is
not read by any state transition, so it is not carried here. -/
@[ext] structure ClientState where
  requestQueue : List Request
  responseQueue : List (String × Request)
  nextRequestId : Nat
  connection : Option Unit
  accountUuidCache : List (String × Jx)
  subscriptionUuidCache : List (String × Jx)
  reconnectPolicy : Bool
  logLevel : Nat

/-- Conditional console output: the source guards every log statement with
`this.logLevel >= threshold`. -/
def logIf (logLevel threshold : Nat) (line : String) : List Event :=
  if threshold ≤ logLevel then [Event.log line] else []

/-- Wire envelope built by `sendRequest` (lines 344-345): the request object
from `query`/`subscribe` with `extensions = \x7brequestId\x7d` assigned. -/
def wirePayload (request : Request) (requestId : String) : Jx :=
  Jx.obj [("query", Jx.str request.queryString),
          ("operationName", request.operationName),
          ("variables", request.vars),
          ("extensions", Jx.obj [("requestId", Jx.str requestId)])]

/-- Well-formedness of a JavaScript regular-expression pattern, covering the
failure modes reachable through the fixed template of line 275: unbalanced
groups `(` `)` (with `(?:` recognized as a group opener), unbalanced
character classes `[` `]`, a dangling trailing backslash, and a quantifier
(`*`, `+`, `?`) with nothing to repeat (a `?` directly after a quantifier is
the valid lazy form).  `prev` tracks what the previous construct was
(0 = nothing/anchor/alternation, 1 = a quantifiable atom, 2 = a quantifier,
3 = a lazy quantifier).  The full JS RegExp grammar is larger; this check
agrees with it on every pattern this development evaluates. -/
def regexpValidGo : List Char → Nat → Bool → Nat → Bool
  | [], depth, inClass, _prev => decide (depth = 0) && !inClass
  | '\\' :: [], _, _, _ => false
  | '\\' :: _ :: rest2, depth, inClass, prev =>
      regexpValidGo rest2 depth inClass (if inClass then prev else 1)
  | '(' :: '?' :: ':' :: rest2, depth, false, _prev =>
      regexpValidGo rest2 (depth + 1) false 0
  | c :: rest, depth, inClass, prev =>
      if inClass then
        if c = ']' then regexpValidGo rest depth false 1
        else regexpValidGo rest depth true prev
      else if c = '(' then regexpValidGo rest (depth + 1) false 0
      else if c = ')' then
        decide (0 < depth) && regexpValidGo rest (depth - 1) false 1
      else if c = '[' then regexpValidGo rest depth true 0
      else if c = '*' || c = '+' then
        decide (prev = 1) && regexpValidGo rest depth false 2
      else if c = '?' then
        (decide (prev = 1) || decide (prev = 2))
          && regexpValidGo rest depth false (if prev = 1 then 2 else 3)
      else if c = '|' || c = '^' || c = '$' then regexpValidGo rest depth false 0
      else regexpValidGo rest depth false 1

/-- Validity of a JS RegExp pattern string (see `regexpValidGo`):
`new RegExp(pattern)` throws a `SyntaxError` exactly when this is false. -/
def regexpValid (pattern : String) : Bool := regexpValidGo pattern.data 0 false 0

/-- The pattern string assembled by InomialClient.js line 275:
`"^(?:query|mutation|subscription)\\s+" + operationName + "\\s*[({].*?^\\}"`,
written here as the resulting pattern characters. -/
def regexTemplate (operationName : String) : String :=
  "^(?:query|mutation|subscription)\\s+" ++ operationName ++ "\\s*[(\x7b].*?^\\\x7d"

/-- The condition under which `logWireRequest` throws (lines 270-275): the
operation name is truthy, the unanchored test of line 270 passes (the name
contains a word character), and interpolating the name into the template
yields an invalid pattern, making `new RegExp` throw a `SyntaxError`.
String coercion of a non-string operation name uses the same mapping as
property-key coercion. -/
def logWireRequestThrows (request : Request) : Bool :=
  jsTruthy request.operationName
    && containsWordStart (jsPropKey request.operationName)
    && !(regexpValid (regexTemplate (jsPropKey request.operationName)))

/-- `logWireRequest` (lines 263-318): inert below level `FINE` (line 264).
At `FINE` it prints the group header of line 268 and then, when the
operation name passes the line-270 test but makes the interpolated RegExp of
line 275 invalid, throws a `SyntaxError` out of the caller.  The remaining
console formatting is diagnostic text and is not reproduced; none of those
statements can throw for the value space handled here. -/
def logWireRequest (logLevel : Nat) (request : Request) (requestId : String) :
    List Event × Option Jx :=
  if FINE ≤ logLevel then
    ([Event.log ("[InomialClient] GraphQL request " ++ requestId ++ " sent:")],
     if logWireRequestThrows request then some (Jx.str "SyntaxError") else none)
  else ([], none)

/-- `logWireResponse` (lines 320-333): inert below level `FINE` (line 321).
At `FINE`, line 325 applies the `in` operator to the parsed body, which
throws a `TypeError` (before anything is printed) unless the body is an
object or array; for object bodies a header line is printed (its exact text,
varying with the presence of a request id, is diagnostic only). -/
def logWireResponse (logLevel : Nat) (response : Jx) : List Event × Option Jx :=
  if FINE ≤ logLevel then
    if isJsObject response then
      ([Event.log "[InomialClient] GraphQL response received:"], none)
    else ([], some (Jx.str "TypeError"))
  else ([], none)

/-- `sendRequest` (lines 340-348): assigns the next request id, stores the
request in `responseQueue` under that id, serializes and transmits the wire
envelope, and finally calls `logWireRequest`, which can throw at level
`FINE`.  The insert and the transmission precede the logging call, so they
take effect even when it throws; the third component is the exception the
method lets escape, if any. -/
def sendRequest (st : ClientState) (request : Request) :
    ClientState × List Event × Option Jx :=
  let requestId := mkReqId st.nextRequestId
  let st1 := { st with nextRequestId := st.nextRequestId + 1,
                       responseQueue := objInsert st.responseQueue requestId request }
  let lw := logWireRequest st.logLevel request requestId
  (st1, Event.sent (stringify (wirePayload request requestId)) :: lw.1, lw.2)

/-- `query` (lines 190-224): builds a OneShot request whose resolve function
is the returned promise (token `tok`); queues it if there is no connection,
sends it immediately otherwise.  `query` is an `async` function, so an
exception thrown by `sendRequest` (the `FINE`-level wire-log throw) does not
escape: it rejects the promise the caller received — after the request was
already transmitted and registered in the pending table.  (A later matching
response then resolves the orphaned inner promise of line 210 under the same
token; no claim distinguishes the two.) -/
def query (st : ClientState) (queryString : String) (vars operationName : Jx)
    (tok : Nat) : ClientState × List Event :=
  let request : Request :=
    { queryString := queryString, operationName := operationName,
      vars := vars, tok := tok, isSubscription := false }
  if st.connection = none then
    ({ st with requestQueue := st.requestQueue ++ [request] }, [])
  else
    let p := sendRequest st request
    match p.2.2 with
    | some e => (p.1, p.2.1 ++ [Event.rejected tok e])
    | none => (p.1, p.2.1)

/-- `subscribe` (lines 232-261): builds a Subscription request whose resolve
function is the callback (token `tok`); queues it if there is no connection,
sends it immediately otherwise.  Like `query` it is `async`, but its
returned promise is discarded by callers, so a `FINE`-level wire-log throw
only rejects that ignored promise (the subscription callback itself is never
rejected); the rejection of the discarded promise is not modelled. -/
def subscribe (st : ClientState) (queryString : String) (vars : Jx)
    (tok : Nat) (operationName : Jx) : ClientState × List Event :=
  let request : Request :=
    { queryString := queryString, operationName := operationName,
      vars := vars, tok := tok, isSubscription := true }
  if st.connection = none then
    ({ st with requestQueue := st.requestQueue ++ [request] }, [])
  else
    let p := sendRequest st request
    (p.1, p.2.1)

/-- `connect` (lines 134-149): logs, creates a fresh transport client and
initiates the transport connection attempt; no client bookkeeping state
changes. -/
def connect (st : ClientState) : ClientState × List Event :=
  (st, logIf st.logLevel INFO "[InomialClient] Attempting to connect"
         ++ [Event.connectAttempt])

/-- Transmission loop of `onConnect` (lines 170-171): `for (let i in
sendQueue) this.sendRequest(sendQueue[i])`, in ascending index order.  A
throw from `sendRequest` (the `FINE`-level wire-log throw) aborts the loop:
the remaining snapshotted requests are not transmitted, and — because the
snapshot was already removed from `requestQueue` — end up in neither
container. -/
def sendAll (st : ClientState) : List Request → ClientState × List Event × Option Jx
  | [] => (st, [], none)
  | r :: rs =>
      let p1 := sendRequest st r
      match p1.2.2 with
      | some e => (p1.1, p1.2.1, some e)
      | none =>
          let p2 := sendAll p1.1 rs
          (p2.1, p1.2.1 ++ p2.2.1, p2.2.2)

/-- `onConnect` (lines 155-172): records the live connection, snapshots
`requestQueue`, resets it to empty, and transmits every snapshotted request;
an exception thrown mid-loop escapes this transport callback (there is no
handler around the loop). -/
def onConnect (st : ClientState) : ClientState × List Event × Option Jx :=
  let logs := logIf st.logLevel INFO "[InomialClient] Connection started"
  let st1 : ClientState := { st with connection := some () }
  let sendQueue := st1.requestQueue
  let st2 : ClientState := { st1 with requestQueue := [] }
  let p := sendAll st2 sendQueue
  (p.1, logs ++ p.2.1, p.2.2)

/-- Inbound websocket frame: a parsed utf8 JSON payload, or a frame of any
other type (`message.type !== 'utf8'`). -/
inductive WsMessage where
  | utf8 (response : Jx)
  | binary

/-- Request-id extraction of `onMessage` (line 359) followed by the property
lookup key coercion: `response.extensions != null ?
response.extensions.requestId : null`, coerced to the string key used by
`this.responseQueue[requestId]`. -/
def messageRequestKey (response : Jx) : String :=
  jsPropKey (if jsIsNullish (jsGet response "extensions") then Jx.null
             else jsGet (jsGet response "extensions") "requestId")

/-- `onMessage` (lines 350-373): ignores non-utf8 frames with an error log;
otherwise calls `logWireResponse` (which at `FINE` throws a `TypeError` for
non-object bodies, aborting the handler before any lookup), then evaluates
`response.extensions` (line 359) — a `TypeError` escaping the handler when
the parsed body is nullish — extracts the request id (null when `extensions`
is nullish), looks it up in `responseQueue`, and on a hit deletes the entry
unless it is a subscription and invokes its resolve function with the full
response; on a miss logs an error.  The third component is the exception the
handler lets escape, if any. -/
def onMessage (st : ClientState) (message : WsMessage) :
    ClientState × List Event × Option Jx :=
  match message with
  | WsMessage.binary =>
      (st, logIf st.logLevel ERRORS "[InomialClient] Recieved unexpected response type",
       none)
  | WsMessage.utf8 response =>
      let lw := logWireResponse st.logLevel response
      match lw.2 with
      | some e => (st, lw.1, some e)
      | none =>
          if jsIsNullish response then
            (st, lw.1, some (Jx.str "TypeError"))
          else
            let key := messageRequestKey response
            match objGet st.responseQueue key with
            | some request =>
                let st1 := if request.isSubscription then st
                           else { st with responseQueue := objDelete st.responseQueue key }
                (st1, lw.1 ++ [Event.resolved request.tok response], none)
            | none =>
                (st, lw.1 ++ logIf st.logLevel ERRORS
                       ("[InomialClient] Received response to unknown request " ++ key),
                 none)

/-- `doReconnect` (lines 378-400): if the reconnection policy is disabled,
logs and returns; otherwise clears the connection handle, pushes every
`responseQueue` entry onto `requestQueue` (logging each id), clears
`responseQueue`, and calls `connect`. -/
def doReconnect (st : ClientState) : ClientState × List Event :=
  if st.reconnectPolicy = false then
    (st, logIf st.logLevel INFO "[InomialClient] Auto-reconnection disabled")
  else
    let logs0 := logIf st.logLevel INFO "[InomialClient] Attempting to reconnect"
    let st1 : ClientState := { st with connection := none }
    let logs1 := (st1.responseQueue.map
      (fun p => logIf st.logLevel INFO ("Re-queueing request " ++ p.1))).flatten
    let st2 : ClientState :=
      { st1 with requestQueue := st1.requestQueue ++ st1.responseQueue.map Prod.snd,
                 responseQueue := [] }
    let p := connect st2
    (p.1, logs0 ++ logs1 ++ p.2)

/-- `onError` (lines 402-406): error log, then `doReconnect`. -/
def onError (st : ClientState) (error : String) : ClientState × List Event :=
  let logs := logIf st.logLevel ERRORS ("[InomialClient] onError, error=" ++ error)
  let p := doReconnect st
  (p.1, logs ++ p.2)

/-- `onClose` (lines 408-412): info log, then `doReconnect`. -/
def onClose (st : ClientState) (reason : String) : ClientState × List Event :=
  let logs := logIf st.logLevel INFO ("[InomialClient] onClose, reason=" ++ reason)
  let p := doReconnect st
  (p.1, logs ++ p.2)

/-- `setLogLevel` (lines 127-129). -/
def setLogLevel (st : ClientState) (logLevel : Nat) : ClientState × List Event :=
  ({ st with logLevel := logLevel }, [])

/-- Query document sent by `getAccountUuid` (line 430). -/
def accountUuidQuery : String :=
  "query($usn: String) \x7b account(usn: $usn) \x7b accountUuid \x7d \x7d"

/-- Query document sent by `getSubscriptionUuid` (line 454). -/
def subscriptionUuidQuery : String :=
  "query($usn: String) \x7b subscription(usn: $usn) \x7b subscriptionUuid \x7d \x7d"

/-- `getAccountUuid`, synchronous part (lines 421-430): on a non-nullish
cache entry, resolves the returned promise (token `tok`) from the cache with
no other effect; on a miss, issues the lookup query (whose own promise is
token `qtok`; its `then` continuation is `getAccountUuidThen`). -/
def getAccountUuid (st : ClientState) (usn : String) (tok qtok : Nat) :
    ClientState × List Event :=
  let uuid := jsGet (Jx.obj st.accountUuidCache) usn
  if jsIsNullish uuid = false then
    (st, [Event.resolved tok uuid])
  else
    query st accountUuidQuery (Jx.obj [("usn", Jx.str usn)]) Jx.undef qtok

/-- `then` continuation of `getAccountUuid` (lines 431-435): reads
`result.data.account.accountUuid` (a thrown `TypeError` on a nullish link of
the chain rejects the promise), stores it in the cache and resolves. -/
def getAccountUuidThen (st : ClientState) (usn : String) (tok : Nat) (result : Jx) :
    ClientState × List Event :=
  match jsGetOpt result "data" with
  | none => (st, [Event.rejected tok (Jx.str "TypeError")])
  | some d =>
      match jsGetOpt d "account" with
      | none => (st, [Event.rejected tok (Jx.str "TypeError")])
      | some a =>
          match jsGetOpt a "accountUuid" with
          | none => (st, [Event.rejected tok (Jx.str "TypeError")])
          | some uuid =>
              ({ st with accountUuidCache := objInsert st.accountUuidCache usn uuid },
               [Event.resolved tok uuid])

/-- `getSubscriptionUuid`, synchronous part (lines 445-454). -/
def getSubscriptionUuid (st : ClientState) (usn : String) (tok qtok : Nat) :
    ClientState × List Event :=
  let uuid := jsGet (Jx.obj st.subscriptionUuidCache) usn
  if jsIsNullish uuid = false then
    (st, [Event.resolved tok uuid])
  else
    query st subscriptionUuidQuery (Jx.obj [("usn", Jx.str usn)]) Jx.undef qtok

/-- `then` continuation of `getSubscriptionUuid` (lines 455-459). -/
def getSubscriptionUuidThen (st : ClientState) (usn : String) (tok : Nat) (result : Jx) :
    ClientState × List Event :=
  match jsGetOpt result "data" with
  | none => (st, [Event.rejected tok (Jx.str "TypeError")])
  | some d =>
      match jsGetOpt d "subscription" with
      | none => (st, [Event.rejected tok (Jx.str "TypeError")])
      | some a =>
          match jsGetOpt a "subscriptionUuid" with
          | none => (st, [Event.rejected tok (Jx.str "TypeError")])
          | some uuid =>
              ({ st with subscriptionUuidCache := objInsert st.subscriptionUuidCache usn uuid },
               [Event.resolved tok uuid])

/-- Constructor state (lines 66-124): empty queues, counter at 1000000, no
connection, empty caches, `reconnectPolicy = false` (line 95), and the
resolved log level (the parameter / environment-variable default logic is
summarized as the resulting numeric level). -/
def initState (logLevel : Nat) : ClientState :=
  { requestQueue := [], responseQueue := [], nextRequestId := 1000000,
    connection := none, accountUuidCache := [], subscriptionUuidCache := [],
    reconnectPolicy := false, logLevel := logLevel }

/-- The public entry point `module.exports.connect` (lines 16-23): constructs
a client and immediately calls `connect()`. -/
def connectEntry (logLevel : Nat) : ClientState × List Event :=
  connect (initState logLevel)

/-- One externally triggered client transition: a public API call or a
transport callback. -/
inductive Op where
  | query (queryString : String) (vars operationName : Jx) (tok : Nat)
  | subscribe (queryString : String) (vars : Jx) (tok : Nat) (operationName : Jx)
  | connect
  | onConnect
  | onMessage (message : WsMessage)
  | onError (error : String)
  | onClose (reason : String)
  | setLogLevel (logLevel : Nat)
  | getAccountUuid (usn : String) (tok qtok : Nat)
  | getAccountUuidThen (usn : String) (tok : Nat) (result : Jx)
  | getSubscriptionUuid (usn : String) (tok qtok : Nat)
  | getSubscriptionUuidThen (usn : String) (tok : Nat) (result : Jx)

/-- An exception escaping a transport callback is surfaced to the host
runtime (the websocket library's event dispatch); the client installs no
handler for it.  At the transition level it is recorded as a final
`Event.threw`, after the events the callback emitted before throwing. -/
def escalate (p : ClientState × List Event × Option Jx) : ClientState × List Event :=
  (p.1, p.2.1 ++ (match p.2.2 with
                  | some e => [Event.threw e]
                  | none => []))

/-- Dispatch one transition. -/
def step (st : ClientState) : Op → ClientState × List Event
  | Op.query qs v opn tok => query st qs v opn tok
  | Op.subscribe qs v tok opn => subscribe st qs v tok opn
  | Op.connect => connect st
  | Op.onConnect => escalate (onConnect st)
  | Op.onMessage m => escalate (onMessage st m)
  | Op.onError e => onError st e
  | Op.onClose r => onClose st r
  | Op.setLogLevel l => setLogLevel st l
  | Op.getAccountUuid usn tok qtok => getAccountUuid st usn tok qtok
  | Op.getAccountUuidThen usn tok result => getAccountUuidThen st usn tok result
  | Op.getSubscriptionUuid usn tok qtok => getSubscriptionUuid st usn tok qtok
  | Op.getSubscriptionUuidThen usn tok result => getSubscriptionUuidThen st usn tok result

/-- Run a sequence of transitions, discarding events. -/
def run (st : ClientState) : List Op → ClientState
  | [] => st
  | op :: ops => run (step st op).1 ops

/-- Run a sequence of transitions, accumulating events in order. -/
def runEv (st : ClientState) : List Op → ClientState × List Event
  | [] => (st, [])
  | op :: ops =>
      let p1 := step st op
      let p2 := runEv p1.1 ops
      (p2.1, p1.2 ++ p2.2)

/-- Console-output test on events. -/
def isLogEv : Event → Bool
  | Event.log _ => true
  | _ => false

/-- Transport-write test on events. -/
def isSentEv : Event → Bool
  | Event.sent _ => true
  | _ => false

/-- Promise-rejection test on events. -/
def isRejectedEv : Event → Bool
  | Event.rejected _ _ => true
  | _ => false

/-- Events with console output removed: the semantically relevant
observables (transport writes, resolutions, rejections, connection
attempts). -/
def stripLogs (evs : List Event) : List Event :=
  evs.filter (fun e => !isLogEv e)

/-- Number of exchanges with completion token `t` in a request list. -/
def cntTok (rs : List Request) (t : Nat) : Nat :=
  rs.countP (fun r => decide (r.tok = t))

/-- Coercion of a JS `undefined` to JSON `null`, used only to state the
spec-side wire envelope. -/
def jsUndefToNull : Jx → Jx
  | Jx.undef => Jx.null
  | v => v

/-- Modelled from the spec: the wire envelope of section 6, an object that
always carries all four fields `query`, `operationName` (string or null),
`variables` (object or null) and `extensions.requestId`.  Stated only to be
compared with `wirePayload`, the envelope the code actually builds. -/
def specWirePayload (request : Request) (requestId : String) : Jx :=
  Jx.obj [("query", Jx.str request.queryString),
          ("operationName", jsUndefToNull request.operationName),
          ("variables", jsUndefToNull request.vars),
          ("extensions", Jx.obj [("requestId", Jx.str requestId)])]

/-! ### Properties of the request-id rendering -/

theorem valLE_digitsLE (f : Nat) : ∀ n, n ≤ f → valLE (digitsLE f n) = n := by
  induction f with
  | zero => intro n hn; interval_cases n; simp [digitsLE, valLE]
  | succ f ih =>
    intro n hn
    by_cases h0 : n = 0
    · simp [digitsLE, h0, valLE]
    · have hdiv : n / 10 ≤ f := by
        have h1 : n / 10 < n := Nat.div_lt_self (Nat.pos_of_ne_zero h0) (by norm_num)
        omega
      simp only [digitsLE, h0, if_false, valLE, ih _ hdiv]
      omega

theorem charVal_digitChar (d : Nat) (h : d < 10) : charVal (digitChar d) = d := by
  interval_cases d <;> rfl

theorem digitsLE_lt (f : Nat) : ∀ n d, d ∈ digitsLE f n → d < 10 := by
  induction f with
  | zero => intro n d hd; simp [digitsLE] at hd
  | succ f ih =>
    intro n d hd
    by_cases h0 : n = 0
    · simp [digitsLE, h0] at hd
    · simp only [digitsLE, h0, if_false, List.mem_cons] at hd
      rcases hd with h | h
      · subst h; exact Nat.mod_lt _ (by norm_num)
      · exact ih _ _ h

theorem foldl_digits (ds : List Nat) (h : ∀ d ∈ ds, d < 10) :
    ∀ a, List.foldl (fun acc c => acc * 10 + charVal c) a ((ds.map digitChar).reverse)
      = a * 10 ^ ds.length + valLE ds := by
  induction ds with
  | nil => intro a; simp [valLE]
  | cons d ds ih =>
    intro a
    have hd : d < 10 := h d (List.mem_cons_self _ _)
    have hds : ∀ x ∈ ds, x < 10 := fun x hx => h x (List.mem_cons_of_mem _ hx)
    simp only [List.map_cons, List.reverse_cons, List.foldl_append, List.foldl_cons,
      List.foldl_nil, ih hds, valLE, List.length_cons, charVal_digitChar d hd]
    ring

theorem decParse_natDecimal (n : Nat) : decParse (natDecimal n) = n := by
  by_cases h0 : n = 0
  · subst h0; rfl
  · simp only [natDecimal, h0, if_false, decParse]
    have := foldl_digits (digitsLE n n) (digitsLE_lt n n) 0
    simpa [valLE_digitsLE n n le_rfl] using this

theorem natDecimal_inj : Function.Injective natDecimal := by
  intro a b h
  have h2 : decParse (natDecimal a) = decParse (natDecimal b) := by rw [h]
  simpa [decParse_natDecimal] using h2

theorem mkReqId_inj : Function.Injective mkReqId := by
  intro a b h
  apply natDecimal_inj
  simp only [mkReqId] at h
  have hd : ("R" ++ natDecimal a).data = ("R" ++ natDecimal b).data := by rw [h]
  simp only [String.data_append] at hd
  have hdd : (natDecimal a).data = (natDecimal b).data := by simpa using hd
  exact String.ext hdd

/-! ### Shape of the state component of `query` and `subscribe` -/

theorem query_fst (st : ClientState) (qs : String) (v opn : Jx) (tok : Nat) :
    (query st qs v opn tok).1
      = if st.connection = none
        then { st with requestQueue := st.requestQueue
                ++ [{ queryString := qs, operationName := opn, vars := v,
                      tok := tok, isSubscription := false }] }
        else (sendRequest st { queryString := qs, operationName := opn, vars := v,
                               tok := tok, isSubscription := false }).1 := by
  simp only [query]
  by_cases h : st.connection = none
  · simp [h]
  · simp only [if_neg h]
    cases (sendRequest st { queryString := qs, operationName := opn, vars := v,
                            tok := tok, isSubscription := false }).2.2 <;> rfl

theorem subscribe_fst (st : ClientState) (qs : String) (v : Jx) (tok : Nat) (opn : Jx) :
    (subscribe st qs v tok opn).1
      = if st.connection = none
        then { st with requestQueue := st.requestQueue
                ++ [{ queryString := qs, operationName := opn, vars := v,
                      tok := tok, isSubscription := true }] }
        else (sendRequest st { queryString := qs, operationName := opn, vars := v,
                               tok := tok, isSubscription := true }).1 := by
  simp only [subscribe]
  by_cases h : st.connection = none
  · simp [h]
  · simp only [if_neg h]

/-! ### Frame lemmas: no operation writes `reconnectPolicy` -/

theorem sendRequest_reconnectPolicy (st : ClientState) (r : Request) :
    (sendRequest st r).1.reconnectPolicy = st.reconnectPolicy := rfl

theorem sendAll_reconnectPolicy : ∀ (rs : List Request) (st : ClientState),
    (sendAll st rs).1.reconnectPolicy = st.reconnectPolicy := by
  intro rs
  induction rs with
  | nil => intro st; rfl
  | cons r rs ih =>
      intro st
      simp only [sendAll]
      cases (sendRequest st r).2.2 with
      | some e => exact sendRequest_reconnectPolicy st r
      | none =>
          show (sendAll (sendRequest st r).1 rs).1.reconnectPolicy = st.reconnectPolicy
          rw [ih]
          exact sendRequest_reconnectPolicy st r

theorem doReconnect_reconnectPolicy (st : ClientState) :
    (doReconnect st).1.reconnectPolicy = st.reconnectPolicy := by
  by_cases h : st.reconnectPolicy = false <;> simp [doReconnect, h, connect]

theorem step_reconnectPolicy (op : Op) (st : ClientState) :
    (step st op).1.reconnectPolicy = st.reconnectPolicy := by
  cases op with
  | query qs v opn tok =>
      show (query st qs v opn tok).1.reconnectPolicy = st.reconnectPolicy
      rw [query_fst]
      split <;> rfl
  | subscribe qs v tok opn =>
      show (subscribe st qs v tok opn).1.reconnectPolicy = st.reconnectPolicy
      rw [subscribe_fst]
      split <;> rfl
  | connect => rfl
  | onConnect =>
      show (onConnect st).1.reconnectPolicy = st.reconnectPolicy
      simp only [onConnect]
      exact sendAll_reconnectPolicy _ _
  | onMessage m =>
      cases m with
      | binary => rfl
      | utf8 resp =>
          show (onMessage st (WsMessage.utf8 resp)).1.reconnectPolicy = st.reconnectPolicy
          simp only [onMessage]
          cases (logWireResponse st.logLevel resp).2 with
          | some e => rfl
          | none =>
              by_cases hn : jsIsNullish resp = true
              · simp [hn]
              · rw [if_neg hn]
                cases objGet st.responseQueue (messageRequestKey resp) with
                | none => rfl
                | some r => by_cases h : r.isSubscription = true <;> simp [h]
  | onError e => simp [step, onError, doReconnect_reconnectPolicy]
  | onClose r => simp [step, onClose, doReconnect_reconnectPolicy]
  | setLogLevel l => rfl
  | getAccountUuid usn tok qtok =>
      simp only [step, getAccountUuid]
      split
      · rfl
      · rw [query_fst]
        split <;> rfl
  | getAccountUuidThen usn tok result =>
      simp only [step, getAccountUuidThen]
      split
      · rfl
      · split
        · rfl
        · split <;> rfl
  | getSubscriptionUuid usn tok qtok =>
      simp only [step, getSubscriptionUuid]
      split
      · rfl
      · rw [query_fst]
        split <;> rfl
  | getSubscriptionUuidThen usn tok result =>
      simp only [step, getSubscriptionUuidThen]
      split
      · rfl
      · split
        · rfl
        · split <;> rfl

theorem run_reconnectPolicy : ∀ (ops : List Op) (st : ClientState),
    (run st ops).reconnectPolicy = st.reconnectPolicy := by
  intro ops
  induction ops with
  | nil => intro st; rfl
  | cons op ops ih => intro st; simp [run, ih, step_reconnectPolicy]

/-- C2: every client built by the public `connect` entry point has
`reconnectPolicy = false`, no sequence of operations ever changes that, and
on any state with the policy disabled `doReconnect` returns after (at most)
an info log: the state is completely unchanged — nothing is re-queued, the
connection handle is not cleared — and no connection attempt is made. -/
theorem reconnect_policy_inert :
    (∀ (logLevel : Nat) (ops : List Op),
        (run (connectEntry logLevel).1 ops).reconnectPolicy = false) ∧
    (∀ st : ClientState, st.reconnectPolicy = false →
        doReconnect st
          = (st, logIf st.logLevel INFO "[InomialClient] Auto-reconnection disabled")) := by
  constructor
  · intro logLevel ops
    rw [run_reconnectPolicy]
    rfl
  · intro st h
    simp [doReconnect, h]

/-- Witness for C2 at concrete inputs. -/
theorem reconnect_policy_inert_witness :
    (run (connectEntry INFO).1 [Op.onConnect, Op.query "q" Jx.undef Jx.undef 7]).reconnectPolicy
        = false ∧
    doReconnect (initState INFO)
      = (initState INFO, logIf (initState INFO).logLevel INFO
          "[InomialClient] Auto-reconnection disabled") :=
  ⟨reconnect_policy_inert.1 INFO [Op.onConnect, Op.query "q" Jx.undef Jx.undef 7],
   reconnect_policy_inert.2 (initState INFO) rfl⟩

/-- C1 (code evaluated at the failing input): with a OneShot exchange
pending under id `R1000000`, a transport close leaves the entire client
state unchanged — the pending exchange is not moved back to the send queue,
the connection handle is not cleared, and no reconnection or retransmission
is attempted (no non-log event at all) — because `reconnectPolicy` is
hard-coded to `false`.  The exchange is preserved in the pending table but
never retried, contradicting the documented automatic re-transmission. -/
theorem close_leaves_pending_unretried :
    (step (run (initState INFO) [Op.onConnect, Op.query "q" Jx.undef Jx.undef 7])
        (Op.onClose "transport closed")).1
      = run (initState INFO) [Op.onConnect, Op.query "q" Jx.undef Jx.undef 7] ∧
    (run (initState INFO) [Op.onConnect, Op.query "q" Jx.undef Jx.undef 7]).responseQueue.map
        Prod.fst = ["R1000000"] ∧
    (run (initState INFO) [Op.onConnect, Op.query "q" Jx.undef Jx.undef 7]).requestQueue = [] ∧
    stripLogs (step (run (initState INFO) [Op.onConnect, Op.query "q" Jx.undef Jx.undef 7])
        (Op.onClose "transport closed")).2 = [] :=
  ⟨rfl, rfl, rfl, rfl⟩

/-- C6 (code evaluated at the failing input): after a transport close the
pending exchange still holds its pre-close id `R1000000` (no fresh id is
ever assigned, since the disabled reconnection policy prevents any
retransmission), and an inbound message bearing that pre-close id is matched
and resolved rather than dropped. -/
theorem stale_id_still_matched :
    (step (run (initState INFO) [Op.onConnect, Op.query "q" Jx.undef Jx.undef 7])
        (Op.onClose "transport closed")).1.responseQueue.map Prod.fst = ["R1000000"] ∧
    stripLogs (step
        (step (run (initState INFO) [Op.onConnect, Op.query "q" Jx.undef Jx.undef 7])
            (Op.onClose "transport closed")).1
        (Op.onMessage (WsMessage.utf8 (Jx.obj [("data", Jx.null),
            ("extensions", Jx.obj [("requestId", Jx.str "R1000000")])])))).2
      = [Event.resolved 7 (Jx.obj [("data", Jx.null),
            ("extensions", Jx.obj [("requestId", Jx.str "R1000000")])])] :=
  ⟨rfl, rfl⟩

/-! ### C3: OneShot removal, Subscription retention -/

theorem objGet_objDelete_self {α : Type} : ∀ (l : List (String × α)) (k : String),
    objGet (objDelete l k) k = none := by
  intro l k
  induction l with
  | nil => rfl
  | cons p rest ih =>
      obtain ⟨k2, v2⟩ := p
      by_cases h : k2 = k <;> simp [objDelete, objGet, h, ih]

theorem logWireResponse_obj_snd (logLevel : Nat) (resp : Jx)
    (hobj : isJsObject resp = true) : (logWireResponse logLevel resp).2 = none := by
  by_cases hl : FINE ≤ logLevel <;> simp [logWireResponse, hl, hobj]

theorem isJsObject_not_nullish (resp : Jx) (hobj : isJsObject resp = true) :
    jsIsNullish resp = false := by
  cases resp <;> simp_all [isJsObject, jsIsNullish]

/-- C3: when a message whose id is found in the pending table arrives (its
body an object, as every parsed JSON response carrying an id is), the owning
exchange's completion is invoked exactly once with the full message payload
and the handler throws nothing.  A OneShot exchange is removed from the
table, so its id no longer resolves and any later message carrying the same
id leaves the state unchanged, invokes no completion, and is logged at error
level.  A Subscription exchange's entry instead remains — the whole state is
unchanged — and its callback is invoked once for the message. -/
theorem oneshot_removed_subscription_retained
    (st : ClientState) (resp : Jx) (req : Request)
    (hobj : isJsObject resp = true)
    (hget : objGet st.responseQueue (messageRequestKey resp) = some req) :
    (req.isSubscription = false →
      onMessage st (WsMessage.utf8 resp)
        = ({ st with responseQueue := objDelete st.responseQueue (messageRequestKey resp) },
           (logWireResponse st.logLevel resp).1 ++ [Event.resolved req.tok resp],
           none) ∧
      objGet (objDelete st.responseQueue (messageRequestKey resp)) (messageRequestKey resp)
        = none ∧
      (∀ resp2 : Jx, isJsObject resp2 = true →
        messageRequestKey resp2 = messageRequestKey resp →
        onMessage ({ st with responseQueue := objDelete st.responseQueue (messageRequestKey resp) })
            (WsMessage.utf8 resp2)
          = ({ st with responseQueue := objDelete st.responseQueue (messageRequestKey resp) },
             (logWireResponse st.logLevel resp2).1
               ++ logIf st.logLevel ERRORS
                    ("[InomialClient] Received response to unknown request "
                      ++ messageRequestKey resp2),
             none))) ∧
    (req.isSubscription = true →
      onMessage st (WsMessage.utf8 resp)
        = (st, (logWireResponse st.logLevel resp).1 ++ [Event.resolved req.tok resp],
           none)) := by
  have hlw := logWireResponse_obj_snd st.logLevel resp hobj
  have hnn := isJsObject_not_nullish resp hobj
  constructor
  · intro hsub
    refine ⟨?_, objGet_objDelete_self _ _, ?_⟩
    · simp [onMessage, hlw, hnn, hget, hsub]
    · intro resp2 hobj2 hkey
      have hlw2 := logWireResponse_obj_snd st.logLevel resp2 hobj2
      have hnn2 := isJsObject_not_nullish resp2 hobj2
      have hmiss : objGet
          (objDelete st.responseQueue (messageRequestKey resp)) (messageRequestKey resp2)
            = none := by
        rw [hkey]; exact objGet_objDelete_self _ _
      simp [onMessage, hlw2, hnn2, hmiss]
  · intro hsub
    simp [onMessage, hlw, hnn, hget, hsub]

/-- Witness for C3: a client with one pending OneShot exchange under id
`R1000000`; the matching response resolves it once and removes the entry. -/
theorem oneshot_removed_subscription_retained_witness :
    onMessage (run (initState INFO) [Op.onConnect, Op.query "q" Jx.undef Jx.undef 7])
        (WsMessage.utf8 (Jx.obj [("extensions", Jx.obj [("requestId", Jx.str "R1000000")])]))
      = ({ run (initState INFO) [Op.onConnect, Op.query "q" Jx.undef Jx.undef 7] with
            responseQueue := objDelete
              (run (initState INFO) [Op.onConnect, Op.query "q" Jx.undef Jx.undef 7]).responseQueue
              (messageRequestKey
                (Jx.obj [("extensions", Jx.obj [("requestId", Jx.str "R1000000")])])) },
         (logWireResponse
             (run (initState INFO) [Op.onConnect, Op.query "q" Jx.undef Jx.undef 7]).logLevel
             (Jx.obj [("extensions", Jx.obj [("requestId", Jx.str "R1000000")])])).1
           ++ [Event.resolved 7
                (Jx.obj [("extensions", Jx.obj [("requestId", Jx.str "R1000000")])])],
         none) :=
  ((oneshot_removed_subscription_retained
      (run (initState INFO) [Op.onConnect, Op.query "q" Jx.undef Jx.undef 7])
      (Jx.obj [("extensions", Jx.obj [("requestId", Jx.str "R1000000")])])
      { queryString := "q", operationName := Jx.undef, vars := Jx.undef,
        tok := 7, isSubscription := false } rfl rfl).1 rfl).1

/-! ### Transmission machinery: `sendAll` and `onConnect` -/

theorem objGet_objInsert_self {α : Type} : ∀ (l : List (String × α)) (k : String) (v : α),
    objGet (objInsert l k v) k = some v := by
  intro l k v
  induction l with
  | nil => simp [objInsert, objGet]
  | cons p rest ih =>
      obtain ⟨k2, v2⟩ := p
      by_cases h : k2 = k <;> simp [objInsert, objGet, h, ih]

theorem stripLogs_append (a b : List Event) :
    stripLogs (a ++ b) = stripLogs a ++ stripLogs b := by
  simp [stripLogs, List.filter_append]

theorem stripLogs_logIf (l t : Nat) (s : String) : stripLogs (logIf l t s) = [] := by
  by_cases h : t ≤ l <;> simp [logIf, h, stripLogs, isLogEv]

theorem filter_isSentEv_logIf (l t : Nat) (s : String) :
    (logIf l t s).filter isSentEv = [] := by
  by_cases h : t ≤ l <;> simp [logIf, h, isSentEv]

/-! ### C8: identifier caches -/

theorem objGet_objInsert_ne {α : Type} : ∀ (l : List (String × α)) (k k2 : String) (v : α),
    k ≠ k2 → objGet (objInsert l k2 v) k = objGet l k := by
  intro l k k2 v hne
  have hne2 : ¬(k2 = k) := fun h => hne h.symm
  induction l with
  | nil => simp [objInsert, objGet, hne2]
  | cons p rest ih =>
      obtain ⟨k3, v3⟩ := p
      by_cases h3 : k3 = k2
      · subst h3
        simp [objInsert, objGet, hne2]
      · simp [objInsert, objGet, h3, ih]

theorem objGet_objInsert_isSome {α : Type} (l : List (String × α)) (k k2 : String) (v : α)
    (h : (objGet l k).isSome) : (objGet (objInsert l k2 v) k).isSome := by
  by_cases hk : k = k2
  · subst hk
    simp [objGet_objInsert_self]
  · rw [objGet_objInsert_ne l k k2 v hk]
    exact h

theorem sendAll_caches : ∀ (rs : List Request) (st : ClientState),
    (sendAll st rs).1.accountUuidCache = st.accountUuidCache ∧
    (sendAll st rs).1.subscriptionUuidCache = st.subscriptionUuidCache := by
  intro rs
  induction rs with
  | nil => intro st; exact ⟨rfl, rfl⟩
  | cons r rs ih =>
      intro st
      simp only [sendAll]
      cases (sendRequest st r).2.2 with
      | some e => exact ⟨rfl, rfl⟩
      | none =>
          constructor
          · show (sendAll (sendRequest st r).1 rs).1.accountUuidCache = st.accountUuidCache
            rw [(ih (sendRequest st r).1).1]
            rfl
          · show (sendAll (sendRequest st r).1 rs).1.subscriptionUuidCache
                = st.subscriptionUuidCache
            rw [(ih (sendRequest st r).1).2]
            rfl

theorem doReconnect_caches (st : ClientState) :
    (doReconnect st).1.accountUuidCache = st.accountUuidCache ∧
    (doReconnect st).1.subscriptionUuidCache = st.subscriptionUuidCache := by
  by_cases h : st.reconnectPolicy = false <;> simp [doReconnect, h, connect]

theorem step_accountUuidCache (op : Op) (st : ClientState) :
    (step st op).1.accountUuidCache = st.accountUuidCache ∨
    ∃ usn2 v, (step st op).1.accountUuidCache = objInsert st.accountUuidCache usn2 v := by
  cases op with
  | query qs v opn tok =>
      left
      show (query st qs v opn tok).1.accountUuidCache = st.accountUuidCache
      rw [query_fst]
      split <;> rfl
  | subscribe qs v tok opn =>
      left
      show (subscribe st qs v tok opn).1.accountUuidCache = st.accountUuidCache
      rw [subscribe_fst]
      split <;> rfl
  | connect => left; rfl
  | onConnect =>
      left
      show (onConnect st).1.accountUuidCache = st.accountUuidCache
      simp only [onConnect]
      exact (sendAll_caches _ _).1
  | onMessage m =>
      left
      cases m with
      | binary => rfl
      | utf8 resp =>
          show (onMessage st (WsMessage.utf8 resp)).1.accountUuidCache = st.accountUuidCache
          simp only [onMessage]
          cases (logWireResponse st.logLevel resp).2 with
          | some e => rfl
          | none =>
              by_cases hn : jsIsNullish resp = true
              · simp [hn]
              · rw [if_neg hn]
                cases objGet st.responseQueue (messageRequestKey resp) with
                | none => rfl
                | some r => by_cases h : r.isSubscription = true <;> simp [h]
  | onError e => left; simpa [step, onError] using (doReconnect_caches st).1
  | onClose r => left; simpa [step, onClose] using (doReconnect_caches st).1
  | setLogLevel l => left; rfl
  | getAccountUuid usn tok qtok =>
      left
      simp only [step, getAccountUuid]
      split
      · rfl
      · rw [query_fst]
        split <;> rfl
  | getAccountUuidThen usn tok result =>
      simp only [step, getAccountUuidThen]
      split
      · left; rfl
      · split
        · left; rfl
        · split
          · left; rfl
          · right; exact ⟨usn, _, rfl⟩
  | getSubscriptionUuid usn tok qtok =>
      left
      simp only [step, getSubscriptionUuid]
      split
      · rfl
      · rw [query_fst]
        split <;> rfl
  | getSubscriptionUuidThen usn tok result =>
      left
      simp only [step, getSubscriptionUuidThen]
      split
      · rfl
      · split
        · rfl
        · split <;> rfl

theorem step_subscriptionUuidCache (op : Op) (st : ClientState) :
    (step st op).1.subscriptionUuidCache = st.subscriptionUuidCache ∨
    ∃ usn2 v, (step st op).1.subscriptionUuidCache
      = objInsert st.subscriptionUuidCache usn2 v := by
  cases op with
  | query qs v opn tok =>
      left
      show (query st qs v opn tok).1.subscriptionUuidCache = st.subscriptionUuidCache
      rw [query_fst]
      split <;> rfl
  | subscribe qs v tok opn =>
      left
      show (subscribe st qs v tok opn).1.subscriptionUuidCache = st.subscriptionUuidCache
      rw [subscribe_fst]
      split <;> rfl
  | connect => left; rfl
  | onConnect =>
      left
      show (onConnect st).1.subscriptionUuidCache = st.subscriptionUuidCache
      simp only [onConnect]
      exact (sendAll_caches _ _).2
  | onMessage m =>
      left
      cases m with
      | binary => rfl
      | utf8 resp =>
          show (onMessage st (WsMessage.utf8 resp)).1.subscriptionUuidCache
              = st.subscriptionUuidCache
          simp only [onMessage]
          cases (logWireResponse st.logLevel resp).2 with
          | some e => rfl
          | none =>
              by_cases hn : jsIsNullish resp = true
              · simp [hn]
              · rw [if_neg hn]
                cases objGet st.responseQueue (messageRequestKey resp) with
                | none => rfl
                | some r => by_cases h : r.isSubscription = true <;> simp [h]
  | onError e => left; simpa [step, onError] using (doReconnect_caches st).2
  | onClose r => left; simpa [step, onClose] using (doReconnect_caches st).2
  | setLogLevel l => left; rfl
  | getAccountUuid usn tok qtok =>
      left
      simp only [step, getAccountUuid]
      split
      · rfl
      · rw [query_fst]
        split <;> rfl
  | getAccountUuidThen usn tok result =>
      left
      simp only [step, getAccountUuidThen]
      split
      · rfl
      · split
        · rfl
        · split <;> rfl
  | getSubscriptionUuid usn tok qtok =>
      left
      simp only [step, getSubscriptionUuid]
      split
      · rfl
      · rw [query_fst]
        split <;> rfl
  | getSubscriptionUuidThen usn tok result =>
      simp only [step, getSubscriptionUuidThen]
      split
      · left; rfl
      · split
        · left; rfl
        · split
          · left; rfl
          · right; exact ⟨usn, _, rfl⟩

/-- C8: a cache hit resolves the identifier lookup from the cache with no
other observable effect (in particular no transport write) and returns the
cached stable identifier; the `then` continuation of a cache-miss lookup
populates the cache with the identifier it resolves, so a second call after
the first has resolved is a hit on the same value; and no client operation
ever removes a cache entry (both caches only grow, for the life of the
instance). -/
theorem uuid_cache_idempotent :
    (∀ (st : ClientState) (usn u : String) (tok qtok : Nat),
        objGet st.accountUuidCache usn = some (Jx.str u) →
        getAccountUuid st usn tok qtok = (st, [Event.resolved tok (Jx.str u)])) ∧
    (∀ (st : ClientState) (usn u : String) (tok qtok : Nat),
        objGet st.subscriptionUuidCache usn = some (Jx.str u) →
        getSubscriptionUuid st usn tok qtok = (st, [Event.resolved tok (Jx.str u)])) ∧
    (∀ (st : ClientState) (usn : String) (tok : Nat) (result : Jx) (u : String),
        jsIsNullish result = false →
        jsIsNullish (jsGet result "data") = false →
        jsIsNullish (jsGet (jsGet result "data") "account") = false →
        jsGet (jsGet (jsGet result "data") "account") "accountUuid" = Jx.str u →
        getAccountUuidThen st usn tok result
          = ({ st with accountUuidCache := objInsert st.accountUuidCache usn (Jx.str u) },
             [Event.resolved tok (Jx.str u)]) ∧
        objGet (objInsert st.accountUuidCache usn (Jx.str u)) usn = some (Jx.str u)) ∧
    (∀ (st : ClientState) (usn : String) (tok : Nat) (result : Jx) (u : String),
        jsIsNullish result = false →
        jsIsNullish (jsGet result "data") = false →
        jsIsNullish (jsGet (jsGet result "data") "subscription") = false →
        jsGet (jsGet (jsGet result "data") "subscription") "subscriptionUuid" = Jx.str u →
        getSubscriptionUuidThen st usn tok result
          = ({ st with subscriptionUuidCache :=
                objInsert st.subscriptionUuidCache usn (Jx.str u) },
             [Event.resolved tok (Jx.str u)]) ∧
        objGet (objInsert st.subscriptionUuidCache usn (Jx.str u)) usn
          = some (Jx.str u)) ∧
    (∀ (op : Op) (st : ClientState) (usn : String),
        (objGet st.accountUuidCache usn).isSome →
        (objGet (step st op).1.accountUuidCache usn).isSome) ∧
    (∀ (op : Op) (st : ClientState) (usn : String),
        (objGet st.subscriptionUuidCache usn).isSome →
        (objGet (step st op).1.subscriptionUuidCache usn).isSome) := by
  refine ⟨?_, ?_, ?_, ?_, ?_, ?_⟩
  · intro st usn u tok qtok h
    simp [getAccountUuid, jsGet, h, jsIsNullish]
  · intro st usn u tok qtok h
    simp [getSubscriptionUuid, jsGet, h, jsIsNullish]
  · intro st usn tok result u h0 h1 h2 h3
    refine ⟨?_, objGet_objInsert_self _ _ _⟩
    simp [getAccountUuidThen, jsGetOpt, h0, h1, h2, h3]
  · intro st usn tok result u h0 h1 h2 h3
    refine ⟨?_, objGet_objInsert_self _ _ _⟩
    simp [getSubscriptionUuidThen, jsGetOpt, h0, h1, h2, h3]
  · intro op st usn h
    rcases step_accountUuidCache op st with he | ⟨usn2, v, he⟩
    · rw [he]; exact h
    · rw [he]; exact objGet_objInsert_isSome _ _ _ _ h
  · intro op st usn h
    rcases step_subscriptionUuidCache op st with he | ⟨usn2, v, he⟩
    · rw [he]; exact h
    · rw [he]; exact objGet_objInsert_isSome _ _ _ _ h

/-- Witness for C8: after the first lookup's continuation stores the uuid,
a second `getAccountUuid` call for the same usn resolves from the cache with
no transport write. -/
theorem uuid_cache_idempotent_witness :
    getAccountUuidThen (initState INFO) "2142649983" 1
        (Jx.obj [("data", Jx.obj [("account",
          Jx.obj [("accountUuid", Jx.str "97a753fb")])])])
      = ({ initState INFO with
            accountUuidCache := objInsert (initState INFO).accountUuidCache "2142649983"
                                  (Jx.str "97a753fb") },
         [Event.resolved 1 (Jx.str "97a753fb")]) ∧
    getAccountUuid
        (getAccountUuidThen (initState INFO) "2142649983" 1
          (Jx.obj [("data", Jx.obj [("account",
            Jx.obj [("accountUuid", Jx.str "97a753fb")])])])).1
        "2142649983" 2 3
      = ((getAccountUuidThen (initState INFO) "2142649983" 1
          (Jx.obj [("data", Jx.obj [("account",
            Jx.obj [("accountUuid", Jx.str "97a753fb")])])])).1,
         [Event.resolved 2 (Jx.str "97a753fb")]) :=
  ⟨(uuid_cache_idempotent.2.2.1 (initState INFO) "2142649983" 1
      (Jx.obj [("data", Jx.obj [("account",
        Jx.obj [("accountUuid", Jx.str "97a753fb")])])]) "97a753fb"
      rfl rfl rfl rfl).1,
   uuid_cache_idempotent.1
     (getAccountUuidThen (initState INFO) "2142649983" 1
       (Jx.obj [("data", Jx.obj [("account",
         Jx.obj [("accountUuid", Jx.str "97a753fb")])])])).1
     "2142649983" "97a753fb" 2 3 rfl⟩

/-! ### C9: the wire payload -/

/-- C9 counterexample: for a `query` call that omits `variables` and
`operationName` (as the repository's own example does), the transmitted
payload serializes only `query` and `extensions.requestId`; it is not the
serialization of the spec's four-field envelope, because `JSON.stringify`
omits fields whose value is `undefined`. -/
theorem wire_payload_spec_mismatch :
    (runEv (initState NONE) [Op.onConnect, Op.query "q" Jx.undef Jx.undef 7]).2
      = [Event.sent (stringify (wirePayload
          { queryString := "q", operationName := Jx.undef, vars := Jx.undef,
            tok := 7, isSubscription := false } "R1000000"))] ∧
    stringify (wirePayload
        { queryString := "q", operationName := Jx.undef, vars := Jx.undef,
          tok := 7, isSubscription := false } "R1000000")
      = "\x7b\"query\":\"q\",\"extensions\":\x7b\"requestId\":\"R1000000\"\x7d\x7d" ∧
    stringify (specWirePayload
        { queryString := "q", operationName := Jx.undef, vars := Jx.undef,
          tok := 7, isSubscription := false } "R1000000")
      = "\x7b\"query\":\"q\",\"operationName\":null,\"variables\":null,\"extensions\":\x7b\"requestId\":\"R1000000\"\x7d\x7d" ∧
    stringify (wirePayload
        { queryString := "q", operationName := Jx.undef, vars := Jx.undef,
          tok := 7, isSubscription := false } "R1000000")
      ≠ stringify (specWirePayload
        { queryString := "q", operationName := Jx.undef, vars := Jx.undef,
          tok := 7, isSubscription := false } "R1000000") := by
  refine ⟨rfl, rfl, rfl, ?_⟩
  decide

/-- C9 as amended: every transmission serializes the wire object whose
fields are exactly `query`, `operationName`, `variables` and an `extensions`
object holding the assigned `requestId` — nothing else — with
`JSON.stringify` omitting any field whose value is `undefined`; and the
state produced together with the write already maps the fresh id to the
exchange in the pending table. -/
theorem wire_payload_shape :
    (∀ (st : ClientState) (r : Request),
        (sendRequest st r).2.1.filter isSentEv
          = [Event.sent (stringify (wirePayload r (mkReqId st.nextRequestId)))] ∧
        objGet (sendRequest st r).1.responseQueue (mkReqId st.nextRequestId) = some r) ∧
    (∀ (r : Request) (id : String), wirePayload r id
        = Jx.obj [("query", Jx.str r.queryString), ("operationName", r.operationName),
                  ("variables", r.vars),
                  ("extensions", Jx.obj [("requestId", Jx.str id)])]) ∧
    (∀ (k : String) (fs : List (String × Jx)),
        stringifyFieldsAux ((k, Jx.undef) :: fs) = stringifyFieldsAux fs) := by
  refine ⟨?_, fun r id => rfl, fun k fs => rfl⟩
  intro st r
  constructor
  · show (Event.sent (stringify (wirePayload r (mkReqId st.nextRequestId)))
        :: (logWireRequest st.logLevel r (mkReqId st.nextRequestId)).1).filter isSentEv
      = [Event.sent (stringify (wirePayload r (mkReqId st.nextRequestId)))]
    by_cases h : FINE ≤ st.logLevel <;> simp [logWireRequest, h, isSentEv]
  · show objGet (objInsert st.responseQueue (mkReqId st.nextRequestId) r)
        (mkReqId st.nextRequestId) = some r
    exact objGet_objInsert_self _ _ _

/-! ### C4, C5, C7, C10: the `FINE`-level wire-log throw

`logWireRequest` interpolates the caller-supplied operation name into a
`new RegExp` (line 275).  At log level `FINE`, an operation name containing
a regex metacharacter (here `"a("`, which leaves a group unterminated in the
template) makes that constructor throw a `SyntaxError` out of `sendRequest`.
The four theorems below exhibit the consequences on concrete runs. -/

/-- C4: the claim fails.  Two exchanges submitted while disconnected are
queued in order, but on the transition to connected, at log level `FINE`
with the first exchange's operation name `"a("`, the wire-log `RegExp`
throw aborts the transmission loop of `onConnect` after the first send: the
send queue has already been emptied, exactly one payload was written, only
the first exchange's fresh id is in the pending table, the second exchange
(token 2) survives in neither container, and the `SyntaxError` escapes the
transport callback.  The claimed transmission of exactly the N queued
exchanges does not happen. -/
theorem queue_only_prefix_transmitted :
    (runEv (initState FINE)
        [Op.query "a" Jx.undef (Jx.str "a(") 1,
         Op.query "b" Jx.undef Jx.undef 2,
         Op.onConnect]).1.requestQueue = []
  ∧ (runEv (initState FINE)
        [Op.query "a" Jx.undef (Jx.str "a(") 1,
         Op.query "b" Jx.undef Jx.undef 2,
         Op.onConnect]).1.responseQueue.map Prod.fst = [mkReqId 1000000]
  ∧ ((runEv (initState FINE)
        [Op.query "a" Jx.undef (Jx.str "a(") 1,
         Op.query "b" Jx.undef Jx.undef 2,
         Op.onConnect]).2.filter isSentEv).length = 1
  ∧ cntTok (runEv (initState FINE)
        [Op.query "a" Jx.undef (Jx.str "a(") 1,
         Op.query "b" Jx.undef Jx.undef 2,
         Op.onConnect]).1.requestQueue 2 = 0
  ∧ cntTok ((runEv (initState FINE)
        [Op.query "a" Jx.undef (Jx.str "a(") 1,
         Op.query "b" Jx.undef Jx.undef 2,
         Op.onConnect]).1.responseQueue.map Prod.snd) 2 = 0
  ∧ (runEv (initState FINE)
        [Op.query "a" Jx.undef (Jx.str "a(") 1,
         Op.query "b" Jx.undef Jx.undef 2,
         Op.onConnect]).2.getLast? = some (Event.threw (Jx.str "SyntaxError")) :=
  ⟨rfl, rfl, rfl, rfl, rfl, rfl⟩

/-- C5: the claim fails.  A Subscription exchange (token 2) queued while
disconnected sits in exactly one container; but when the connection opens at
log level `FINE` behind a queued query whose operation name `"a("` makes the
wire-log `RegExp` throw, the loop of `onConnect` aborts before reaching the
subscription: the snapshot had already been removed from the send queue, so
from then on the subscription is present in neither the send queue nor the
pending table — while the client is connected and the claim requires it to
be in exactly one of them. -/
theorem subscription_lost_in_neither_container :
    cntTok (run (initState FINE)
        [Op.query "a" Jx.undef (Jx.str "a(") 1,
         Op.subscribe "s" Jx.undef 2 Jx.undef]).requestQueue 2 = 1
  ∧ cntTok (run (initState FINE)
        [Op.query "a" Jx.undef (Jx.str "a(") 1,
         Op.subscribe "s" Jx.undef 2 Jx.undef,
         Op.onConnect]).requestQueue 2 = 0
  ∧ cntTok ((run (initState FINE)
        [Op.query "a" Jx.undef (Jx.str "a(") 1,
         Op.subscribe "s" Jx.undef 2 Jx.undef,
         Op.onConnect]).responseQueue.map Prod.snd) 2 = 0
  ∧ (run (initState FINE)
        [Op.query "a" Jx.undef (Jx.str "a(") 1,
         Op.subscribe "s" Jx.undef 2 Jx.undef,
         Op.onConnect]).connection = some () :=
  ⟨rfl, rfl, rfl, rfl⟩

/-- C7: the claim fails.  A connected one-shot submission at log level
`FINE` with operation name `"a("` has its returned future rejected with the
`SyntaxError` of the wire-log `RegExp` — after the payload was already
transmitted and registered — even though no transport disconnection and no
protocol-level error payload is involved; the same submission at level
`INFO` rejects nothing.  The future is therefore not rejected only on
protocol-level grounds as claimed. -/
theorem oneshot_rejected_by_wire_log :
    (runEv (initState FINE)
        [Op.onConnect, Op.query "q" Jx.undef (Jx.str "a(") 7]).2.filter isRejectedEv
      = [Event.rejected 7 (Jx.str "SyntaxError")]
  ∧ ((runEv (initState FINE)
        [Op.onConnect, Op.query "q" Jx.undef (Jx.str "a(") 7]).2.filter isSentEv).length
      = 1
  ∧ (runEv (initState INFO)
        [Op.onConnect, Op.query "q" Jx.undef (Jx.str "a(") 7]).2.filter isRejectedEv
      = [] :=
  ⟨rfl, rfl, rfl⟩

/-- C10: the claim fails.  Two runs differing only in the configured log
level diverge in more than diagnostic output: for a connected submission
with operation name `"a("`, the run at `FINE` emits exactly the non-log
events of the run at `INFO` plus a rejection of the submission's future with
the wire-log `SyntaxError`; the two non-log event sequences are not
identical.  The log level therefore gates outcomes, not just diagnostic
output. -/
theorem log_level_changes_outcomes :
    stripLogs (runEv (initState INFO)
          [Op.onConnect, Op.query "r" Jx.undef (Jx.str "a(") 9]).2
        ++ [Event.rejected 9 (Jx.str "SyntaxError")]
      = stripLogs (runEv (initState FINE)
          [Op.onConnect, Op.query "r" Jx.undef (Jx.str "a(") 9]).2
  ∧ stripLogs (runEv (initState INFO)
          [Op.onConnect, Op.query "r" Jx.undef (Jx.str "a(") 9]).2
      ≠ stripLogs (runEv (initState FINE)
          [Op.onConnect, Op.query "r" Jx.undef (Jx.str "a(") 9]).2 := by
  have h1 : (stripLogs (runEv (initState INFO)
      [Op.onConnect, Op.query "r" Jx.undef (Jx.str "a(") 9]).2).length = 1 := rfl
  have h2 : (stripLogs (runEv (initState FINE)
      [Op.onConnect, Op.query "r" Jx.undef (Jx.str "a(") 9]).2).length = 2 := rfl
  refine ⟨rfl, fun h => ?_⟩
  rw [h, h2] at h1
  exact absurd h1 (by decide)

end WsClient
